import Mathlib

/-!
Verification of the SwaggerAggregator frontend/client code and of the
Credential Vault & Authenticated Proxy Gateway contracts.

The repository under scrutiny ships the TypeScript web frontend, mobile app
and shared API client.  Pure logic from those files (URL template
resolution, secret-save request construction, proxy payload construction,
the axios client module) is embedded shallowly below.  The backend that
implements the Secret Vault, Credential Resolver, Token Issuer and Request
Forwarder is not part of the shipped sources; where a property is decided
by that backend, a definition marked `Modelled from the spec:` follows the
specification's words.
-/

namespace SwaggerAggregator

/-! ## JavaScript string primitives

`String.prototype.replace(searchString, replacement)` with a plain-string
search pattern replaces only the first occurrence, and the replacement is
literal whenever it contains no `$` patterns (all replacements below are
percent-encoded, so `$` never occurs: it encodes to `%24`). -/

/-- First-occurrence string replacement on character lists, mirroring the
ECMAScript `String.prototype.replace` with a string pattern. -/
def replaceFirstList (pat repl : List Char) : List Char → List Char
  | [] => if pat = [] then repl else []
  | c :: rest =>
      if pat.isPrefixOf (c :: rest) then repl ++ (c :: rest).drop pat.length
      else c :: replaceFirstList pat repl rest

/-- First-occurrence string replacement, as performed by the source's
`path.replace(pattern, replacement)` calls. -/
def replaceFirst (s pat repl : String) : String :=
  String.mk (replaceFirstList pat.data repl.data s.data)

/-- Hexadecimal digit character (uppercase), used by percent-encoding. -/
def hexDigit (n : Nat) : Char :=
  if n < 10 then Char.ofNat (48 + n) else Char.ofNat (55 + n)

/-- UTF-8 octets of a Unicode scalar value. -/
def utf8Bytes (n : Nat) : List Nat :=
  if n < 0x80 then [n]
  else if n < 0x800 then [0xC0 + n / 0x40, 0x80 + n % 0x40]
  else if n < 0x10000 then
    [0xE0 + n / 0x1000, 0x80 + (n / 0x40) % 0x40, 0x80 + n % 0x40]
  else
    [0xF0 + n / 0x40000, 0x80 + (n / 0x1000) % 0x40,
     0x80 + (n / 0x40) % 0x40, 0x80 + n % 0x40]

/-- `%XX` escape of one octet. -/
def percentByte (b : Nat) : List Char :=
  [Char.ofNat 37, hexDigit (b / 16), hexDigit (b % 16)]

/-- Characters the ECMAScript `encodeURIComponent` leaves unescaped:
letters, digits and `- _ . ! ~ * ( )` together with the apostrophe
(written by code point to keep the character set explicit). -/
def isUnreservedURI (c : Char) : Bool :=
  c.isAlphanum || c == Char.ofNat 45 || c == Char.ofNat 95 ||
    c == Char.ofNat 46 || c == Char.ofNat 33 || c == Char.ofNat 126 ||
    c == Char.ofNat 42 || c == Char.ofNat 39 || c == Char.ofNat 40 ||
    c == Char.ofNat 41

/-- Encoding of a single character under `encodeURIComponent`. -/
def encodeChar (c : Char) : List Char :=
  if isUnreservedURI c then [c]
  else (utf8Bytes c.toNat).foldr (fun b acc => percentByte b ++ acc) []

/-- The ECMAScript `encodeURIComponent` builtin used by every `buildUrl`
variant in the sources. -/
def encodeURIComponent (s : String) : String :=
  String.mk (s.data.foldr (fun c acc => encodeChar c ++ acc) [])

/-- The `{name}` placeholder pattern string built by `buildUrl`
(template literal `{${name}}` in the sources). -/
def placeholder (n : String) : String := "\x7b" ++ n ++ "\x7d"

/-- JS `.replace(/\/+$/, "")`: strip trailing slashes. -/
def stripTrailingSlashes (s : String) : String :=
  String.mk (s.data.reverse.dropWhile (fun c => c == Char.ofNat 47)).reverse

/-! ## Path Template Resolver — `buildUrl`

Two variants coexist in the sources.

`frontend/src/components/ExecutePanel.tsx` (and the plain mobile
`ExecutePanel`):

```
for (const [name, value] of Object.entries(pathParams)) {
  path = path.replace(`{${name}}`, encodeURIComponent(value || name));
}
```

The reworked `ExecutePanel` (unnamed part 15, and the themed mobile panel):

```
for (const [name, value] of Object.entries(pathParams)) {
  if (value) {
    path = path.replace(`{${name}}`, encodeURIComponent(value));
  }
}
```

`pathParams` is modelled as an association list in `Object.entries`
(insertion) order. -/

namespace FrontendExecutePanel

/-- Path-substitution loop of `buildUrl` in
`frontend/src/components/ExecutePanel.tsx`: an empty value falls back to
the parameter name (`value || name`) and is substituted percent-encoded. -/
def resolvePath (template : String) (params : List (String × String)) : String :=
  params.foldl
    (fun path p =>
      replaceFirst path (placeholder p.1)
        (encodeURIComponent (if p.2 = "" then p.1 else p.2)))
    template

/-- `buildUrl` of `frontend/src/components/ExecutePanel.tsx`. -/
def buildUrl (baseUrl : String) (template : String)
    (params : List (String × String)) : String :=
  let path := resolvePath template params
  let base := stripTrailingSlashes baseUrl
  let cleanPath := if path.startsWith "/" then path else "/" ++ path
  base ++ cleanPath

end FrontendExecutePanel

namespace Part015ExecutePanel

/-- Path-substitution loop of `buildUrl` in the reworked `ExecutePanel`
(unnamed part 15): a placeholder is substituted (percent-encoded) only when
the user entered a non-empty value, and is left literally otherwise. -/
def resolvePath (template : String) (params : List (String × String)) : String :=
  params.foldl
    (fun path p =>
      if p.2 ≠ "" then
        replaceFirst path (placeholder p.1) (encodeURIComponent p.2)
      else path)
    template

/-- `buildUrl` of the reworked `ExecutePanel` (unnamed part 15). -/
def buildUrl (baseUrl : String) (template : String)
    (params : List (String × String)) : String :=
  let path := resolvePath template params
  let base := stripTrailingSlashes baseUrl
  let cleanPath := if path.startsWith "/" then path else "/" ++ path
  base ++ cleanPath

end Part015ExecutePanel

/-! ## Secret save — Settings screens

`frontend/src/pages/SettingsPage.tsx` and `mobile/app/(tabs)/settings.tsx`
build the `PUT /api/secrets/{environment_id}` body identically:

```
const data: { jwt_secret?: string; admin_password?: string } = {};
if (jwtSecret.trim()) data.jwt_secret = jwtSecret;
if (adminPassword.trim()) data.admin_password = adminPassword;
if (Object.keys(data).length === 0) { setError(...); return; }
await secretsApi.saveSecrets(selectedEnvId, data);
```
-/

/-- ECMAScript WhiteSpace and LineTerminator code points, the set stripped
by `String.prototype.trim`. -/
def isJsWhitespace (c : Char) : Bool :=
  c == Char.ofNat 9 || c == Char.ofNat 10 || c == Char.ofNat 11 ||
  c == Char.ofNat 12 || c == Char.ofNat 13 || c == Char.ofNat 32 ||
  c == Char.ofNat 0xA0 || c == Char.ofNat 0x1680 ||
  (0x2000 ≤ c.toNat && c.toNat ≤ 0x200A) ||
  c == Char.ofNat 0x2028 || c == Char.ofNat 0x2029 ||
  c == Char.ofNat 0x202F || c == Char.ofNat 0x205F ||
  c == Char.ofNat 0x3000 || c == Char.ofNat 0xFEFF

/-- The ECMAScript `String.prototype.trim` builtin used by `handleSave`. -/
def jsTrim (s : String) : String :=
  String.mk ((s.data.dropWhile isJsWhitespace).reverse.dropWhile isJsWhitespace).reverse

/-- `SecretSave` from `shared/src/types/secrets`: both fields optional. -/
structure SecretSave where
  jwt_secret : Option String
  admin_password : Option String
deriving DecidableEq, Repr

/-- The request body assembled by `handleSave`: a field is included only
when its input trims to something non-empty, and the included value is the
original (untrimmed) input. -/
def mkSaveData (jwtSecret adminPassword : String) : SecretSave :=
  { jwt_secret := if jsTrim jwtSecret ≠ "" then some jwtSecret else none
    admin_password := if jsTrim adminPassword ≠ "" then some adminPassword else none }

/-- Outcome of `handleSave` before the network call: a client-side error
message, or the request actually issued to `secretsApi.saveSecrets`. -/
inductive SaveOutcome where
  | clientError (message : String) : SaveOutcome
  | request (data : SecretSave) : SaveOutcome
deriving DecidableEq, Repr

/-- `handleSave` of the Settings screens (web and mobile agree): guard on a
selected environment, assemble the field set, refuse an empty field set,
otherwise issue the save request. -/
def handleSave (selectedEnvId jwtSecret adminPassword : String) : SaveOutcome :=
  if selectedEnvId = "" then .clientError "Please select an environment"
  else
    let data := mkSaveData jwtSecret adminPassword
    if data.jwt_secret.isNone && data.admin_password.isNone then
      .clientError "Please enter at least one secret to save"
    else .request data

/-! ## Secret Vault — spec-modelled backend

The vault itself (save / status against the encrypted store) is backend
code absent from the shipped sources; it is modelled from spec §4.1. -/

/-- Modelled from the spec: ciphertext produced by the vault's
authenticated-encryption scheme (§3 `SecretRecord`); the constructor stands
for encryption under the process-wide master key. -/
structure Ciphertext where
  ct : String
deriving DecidableEq, Repr

/-- Modelled from the spec: `SecretRecord` (§3) — two independent nullable
ciphertext slots per environment. -/
structure SecretRecord where
  encrypted_signing_secret : Option Ciphertext
  encrypted_service_password : Option Ciphertext
deriving DecidableEq, Repr

/-- Modelled from the spec: the vault's store, keyed by environment
identifier (first match wins on lookup). -/
abbrev Store := List (String × SecretRecord)

/-- Modelled from the spec: record lookup by environment identifier. -/
def findRecord (env : String) : Store → Option SecretRecord
  | [] => none
  | (k, r) :: rest => if env = k then some r else findRecord env rest

/-- `SecretStatus` from `shared/src/types/secrets`: environment identifier
and the two presence flags only — the type has no field that could carry a
secret value. -/
structure SecretStatus where
  environment_id : String
  has_jwt_secret : Bool
  has_admin_password : Bool
deriving DecidableEq, Repr

/-- Modelled from the spec: `status(environment_id)` (§4.1) — derived
read-only view; an absent record yields both flags false. -/
def vaultStatus (st : Store) (env : String) : SecretStatus :=
  match findRecord env st with
  | none =>
      { environment_id := env, has_jwt_secret := false, has_admin_password := false }
  | some r =>
      { environment_id := env
        has_jwt_secret := r.encrypted_signing_secret.isSome
        has_admin_password := r.encrypted_service_password.isSome }

/-- Modelled from the spec: the vault's error taxonomy entries relevant to
`save` (§7). -/
inductive VaultError where
  | validationError : VaultError
deriving DecidableEq, Repr

/-- Modelled from the spec: `save(environment_id, {signing_secret?,
service_password?})` (§4.1) — an absent field leaves the stored slot
untouched, a provided field is encrypted and stored, and a save providing
neither field fails with `ValidationError` before anything is persisted.
`updateRecord` is the per-record slot update. -/
def updateRecord (old : SecretRecord) (data : SecretSave) : SecretRecord :=
  { encrypted_signing_secret :=
      match data.jwt_secret with
      | some s => some ⟨s⟩
      | none => old.encrypted_signing_secret
    encrypted_service_password :=
      match data.admin_password with
      | some s => some ⟨s⟩
      | none => old.encrypted_service_password }

def vaultSave (st : Store) (env : String) (data : SecretSave) :
    Except VaultError Store :=
  if data.jwt_secret.isNone && data.admin_password.isNone then
    .error .validationError
  else
    .ok ((env,
      updateRecord
        ((findRecord env st).getD
          { encrypted_signing_secret := none, encrypted_service_password := none })
        data) :: st)

/-- Presence-only shape of a store: which slots are filled, forgetting
every ciphertext value.  Two stores of equal shape are indistinguishable
to any plaintext-free view. -/
def storeShape (st : Store) : List (String × (Bool × Bool)) :=
  st.map fun p =>
    (p.1, (p.2.encrypted_signing_secret.isSome, p.2.encrypted_service_password.isSome))

/-! ## Credential Resolver — spec-modelled backend

The resolver runs in the backend, absent from the shipped sources; it is
modelled from spec §4.2.  Mode names follow the code's wire values:
`jwt` = bearer, `admin` = service_credential, `none` = no credential. -/

/-- `auth_mode` values of `ProxyRequest` in `shared/src/types/proxy.ts`. -/
inductive AuthMode where
  | jwt : AuthMode
  | admin : AuthMode
  | noAuth : AuthMode
deriving DecidableEq, Repr

/-- Modelled from the spec: resolver failure (§7 `CredentialMissingError`). -/
inductive CredError where
  | credentialMissing : CredError
deriving DecidableEq, Repr

/-- Modelled from the spec: the Credential Resolver (§4.2).  Arguments:
auth mode, the two caller overrides, and the vault's stored service
password (already revealed).  Produces the credential to attach, or no
credential, or `CredentialMissingError`; bearer mode uses the override
verbatim and never consults the vault. -/
def resolveCredential (mode : AuthMode)
    (bearerTokenOverride serviceCredentialOverride : Option String)
    (vaultServicePassword : Option String) : Except CredError (Option String) :=
  match mode with
  | .jwt =>
      match bearerTokenOverride with
      | some t => .ok (some t)
      | none => .error .credentialMissing
  | .admin =>
      match serviceCredentialOverride with
      | some s =>
          if s ≠ "" then .ok (some s)
          else
            match vaultServicePassword with
            | some p => .ok (some p)
            | none => .error .credentialMissing
      | none =>
          match vaultServicePassword with
          | some p => .ok (some p)
          | none => .error .credentialMissing
  | .noAuth => .ok none

/-! ## Request Forwarder — spec-modelled backend

`POST /api/proxy/execute` is served by the backend, absent from the
shipped sources; the upstream-outcome handling is modelled from §4.5. -/

/-- `ProxyResponse` from `shared/src/types/proxy.ts`. -/
structure ProxyResponse where
  status_code : Nat
  headers : List (String × String)
  body : String
  elapsed_ms : Nat
  request_url : Option String
deriving DecidableEq, Repr

/-- Modelled from the spec: transport-level failures (§4.5, §7). -/
inductive TransportError where
  | dnsFailure : TransportError
  | connectionRefused : TransportError
  | timeout : TransportError
  | tlsFailure : TransportError
deriving DecidableEq, Repr

/-- What the upstream service did with a forwarded call: answered with an
HTTP response (any status), or the transport failed. -/
inductive UpstreamOutcome where
  | response (status : Nat) (headers : List (String × String))
      (body : String) (elapsedMs : Nat) : UpstreamOutcome
  | transportFailure (kind : TransportError) : UpstreamOutcome
deriving DecidableEq, Repr

/-- Modelled from the spec: the Request Forwarder's treatment of the
upstream outcome (§4.5) — every HTTP response, 2xx or not, becomes a
normal `ProxyResponse`; only transport failures raise an error. -/
def forwardOutcome (requestUrl : String) :
    UpstreamOutcome → Except TransportError ProxyResponse
  | .response status headers body elapsedMs =>
      .ok { status_code := status, headers := headers, body := body
            elapsed_ms := elapsedMs, request_url := some requestUrl }
  | .transportFailure kind => .error kind

/-- `statusColor` of `frontend/src/components/ExecutePanel.tsx`: the UI
renders any status code of a returned response, colour-coded. -/
def statusColor (code : Nat) : String :=
  if 200 ≤ code ∧ code < 300 then "text-green-700 bg-green-50"
  else if 400 ≤ code ∧ code < 500 then "text-yellow-700 bg-yellow-50"
  else "text-red-700 bg-red-50"

/-! ## Proxy payload construction — `handleExecute`

`frontend/src/components/ExecutePanel.tsx` (the mobile panels agree on the
auth fields):

```
await proxyApi.executeRequest({
  url: buildUrl(), method: ..., headers,
  query_params: Object.fromEntries(Object.entries(queryParams).filter(([, v]) => v !== "")),
  body, environment_id: environmentId, auth_mode: authMode,
  jwt_token: authMode === "jwt" ? jwtToken : undefined,
  admin_password: authMode === "admin" ? adminPassword : undefined,
});
```
-/

/-- `ProxyRequest` from `shared/src/types/proxy.ts` (body kept opaque). -/
structure ProxyRequest where
  url : String
  method : String
  headers : List (String × String)
  query_params : List (String × String)
  body : Option String
  environment_id : Option String
  auth_mode : AuthMode
  jwt_token : Option String
  admin_password : Option String
deriving DecidableEq, Repr

/-- The payload `handleExecute` passes to `proxyApi.executeRequest`:
empty-valued query params dropped, the JWT token attached only in `jwt`
mode, the admin password only in `admin` mode. -/
def mkExecutePayload (url method : String) (headers qps : List (String × String))
    (body : Option String) (environmentId : String) (authMode : AuthMode)
    (jwtToken adminPassword : String) : ProxyRequest :=
  { url := url
    method := method
    headers := headers
    query_params := qps.filter fun p => p.2 ≠ ""
    body := body
    environment_id := some environmentId
    auth_mode := authMode
    jwt_token := if authMode = .jwt then some jwtToken else none
    admin_password := if authMode = .admin then some adminPassword else none }

/-! ## Shared axios API client (unnamed part 9)

Module-level singleton with an injected token-storage adapter:

```
let apiClient: AxiosInstance | null = null;
let tokenStorage: TokenStorage | null = null;
export function initApiClient(baseUrl?, storage?) {
  tokenStorage = storage ?? null;
  apiClient = axios.create({ baseURL: baseUrl || DEFAULT_BASE_URL,
    headers: { "Content-Type": "application/json" }, timeout: 30000 });
  ... interceptors ...
  return apiClient;
}
export function getApiClient() {
  if (!apiClient) throw new Error("API client not initialized. Call initApiClient() first.");
  return apiClient;
}
```

The token-storage adapter is modelled by its observable content: the token
it currently holds, if any. -/

namespace ApiClient

/-- Contents of a token-storage adapter: the token it currently holds. -/
abbrev StorageContent := Option String

/-- The axios configuration `initApiClient` passes to `axios.create`. -/
structure AxiosConfig where
  baseURL : String
  contentTypeHeader : String
  timeout : Nat
deriving DecidableEq, Repr

/-- An axios instance, identified by its creation-time configuration. -/
structure AxiosInstance where
  config : AxiosConfig
deriving DecidableEq, Repr

/-- `DEFAULT_BASE_URL` of the client module. -/
def DEFAULT_BASE_URL : String := "http://localhost:8000"

/-- Module-level state of the client module: the two `let` bindings
`apiClient` and `tokenStorage` (`none` = JS `null`).  The stored adapter is
represented by its current content. -/
structure ModuleState where
  apiClient : Option AxiosInstance
  tokenStorage : Option StorageContent
deriving DecidableEq, Repr

/-- The module's state before any call: both bindings `null`. -/
def initialModuleState : ModuleState :=
  { apiClient := none, tokenStorage := none }

/-- `axios.create` as configured by `initApiClient`: `baseUrl ||
DEFAULT_BASE_URL` (empty string is falsy), JSON content type, 30 s
timeout. -/
def mkAxiosInstance (baseUrl : Option String) : AxiosInstance :=
  { config :=
      { baseURL :=
          match baseUrl with
          | some b => if b = "" then DEFAULT_BASE_URL else b
          | none => DEFAULT_BASE_URL
        contentTypeHeader := "application/json"
        timeout := 30000 } }

/-- `initApiClient(baseUrl?, storage?)`: store the adapter (`storage ??
null`), construct the client, store and return it. -/
def initApiClient (st : ModuleState) (baseUrl : Option String)
    (storage : Option StorageContent) : ModuleState × AxiosInstance :=
  let client := mkAxiosInstance baseUrl
  ({ apiClient := some client, tokenStorage := storage }, client)

/-- `getApiClient()`: throw when uninitialized, else return the stored
instance. -/
def getApiClient (st : ModuleState) : Except String AxiosInstance :=
  match st.apiClient with
  | none => .error "API client not initialized. Call initApiClient() first."
  | some c => .ok c

/-- States reachable by any sequence of module calls: the module starts at
`initialModuleState`, and only `initApiClient` updates the bindings. -/
inductive Reachable : ModuleState → Prop where
  | start : Reachable initialModuleState
  | step (st : ModuleState) (baseUrl : Option String)
      (storage : Option StorageContent) : Reachable st →
      Reachable (initApiClient st baseUrl storage).1

/-- Set-or-overwrite of one header, as JS `config.headers.Authorization =
value`. -/
def setHeader (hs : List (String × String)) (k v : String) : List (String × String) :=
  if hs.any (fun p => p.1 = k) then
    hs.map fun p => if p.1 = k then (k, v) else p
  else hs ++ [(k, v)]

/-- First-match header lookup (observer used to state header properties). -/
def getHeader : List (String × String) → String → Option String
  | [], _ => none
  | p :: rest, k => if p.1 = k then some p.2 else getHeader rest k

/-- The request interceptor: when an adapter is installed and the token it
yields is truthy (`if (token)` in the source — non-null *and* non-empty),
set `Authorization: Bearer <token>`; otherwise pass the headers through
unchanged. -/
def requestInterceptor (adapter : Option StorageContent)
    (headers : List (String × String)) : List (String × String) :=
  match adapter with
  | some (some t) =>
      if t = "" then headers
      else setHeader headers "Authorization" ("Bearer " ++ t)
  | some none => headers
  | none => headers

/-- The response error interceptor: on a 401 with an installed adapter,
remove the stored token; in every case the error is propagated (JS
`return Promise.reject(error)`), reported here as the `Bool` component. -/
def responseErrorInterceptor (status : Nat) (adapter : Option StorageContent) :
    Option StorageContent × Bool :=
  match adapter with
  | some content =>
      if status = 401 then (some none, true) else (some content, true)
  | none => (none, true)

end ApiClient

end SwaggerAggregator

/-! ## Theorems -/

namespace SwaggerAggregator

/-- Helper: entries of the parameter map whose value is empty contribute
nothing to the part-015 resolver, so resolution coincides with resolution
over the non-empty entries only. -/
theorem part015_resolvePath_filter (ps : List (String × String)) :
    ∀ t, Part015ExecutePanel.resolvePath t ps =
      Part015ExecutePanel.resolvePath t (ps.filter fun p => p.2 ≠ "") := by
  induction ps with
  | nil => intro t; rfl
  | cons p rest ih =>
      intro t
      by_cases hp : p.2 = ""
      · have h1 : Part015ExecutePanel.resolvePath t (p :: rest) =
            Part015ExecutePanel.resolvePath t rest := by
          simp [Part015ExecutePanel.resolvePath, hp]
        have h2 : (p :: rest).filter (fun q => q.2 ≠ "") =
            rest.filter (fun q => q.2 ≠ "") := by
          simp [List.filter_cons, hp]
        rw [h1, h2, ih t]
      · have h1 : Part015ExecutePanel.resolvePath t (p :: rest) =
            Part015ExecutePanel.resolvePath
              (replaceFirst t (placeholder p.1) (encodeURIComponent p.2)) rest := by
          simp [Part015ExecutePanel.resolvePath, hp]
        have h2 : (p :: rest).filter (fun q => q.2 ≠ "") =
            p :: rest.filter (fun q => q.2 ≠ "") := by
          simp [List.filter_cons, hp]
        rw [h1, h2]
        have h3 : Part015ExecutePanel.resolvePath t (p :: rest.filter (fun q => q.2 ≠ "")) =
            Part015ExecutePanel.resolvePath
              (replaceFirst t (placeholder p.1) (encodeURIComponent p.2))
              (rest.filter (fun q => q.2 ≠ "")) := by
          simp [Part015ExecutePanel.resolvePath, hp]
        rw [h3, ih]

/-- Helper: one-entry characterisation of the part-015 resolver — an empty
value leaves the template untouched, a non-empty value is substituted
percent-encoded for the first occurrence of its placeholder. -/
theorem part015_single (t n v : String) :
    Part015ExecutePanel.resolvePath t [(n, v)] =
      if v = "" then t else replaceFirst t (placeholder n) (encodeURIComponent v) := by
  by_cases hv : v = "" <;> simp [Part015ExecutePanel.resolvePath, hv]

/-- C1 counterexample: `buildUrl` of `frontend/src/components/ExecutePanel.tsx`
resolves the spec's example `/users/{id}/posts/{postId}` with
`id="42", postId=""` to `/users/42/posts/postId` — the empty-valued
placeholder is replaced by the percent-encoded parameter *name*, not left
literally with its braces as the claim states. -/
theorem c1_counterexample :
    FrontendExecutePanel.resolvePath "/users/{id}/posts/{postId}"
      [("id", "42"), ("postId", "")] = "/users/42/posts/postId" ∧
    FrontendExecutePanel.resolvePath "/users/{id}/posts/{postId}"
      [("id", "42"), ("postId", "")] ≠ "/users/42/posts/{postId}" := by
  exact ⟨rfl, by decide⟩

/-- C1 amended: the reworked `ExecutePanel` (unnamed part 15, and the
themed mobile panel) behaves as claimed — a placeholder whose value is
absent or empty is left literally (empty-valued entries are no-ops, an
absent entry is never touched) and a non-empty value is substituted
percent-encoded, so the spec's example resolves to
`/users/42/posts/{postId}`; the `frontend/src` panel (and the plain mobile
panel) instead substitutes the percent-encoded parameter name for an
empty value, yielding `/users/42/posts/postId`. -/
theorem c1_amended :
    (∀ t : String, Part015ExecutePanel.resolvePath t [] = t) ∧
    (∀ (t : String) (ps : List (String × String)),
       Part015ExecutePanel.resolvePath t ps =
         Part015ExecutePanel.resolvePath t (ps.filter fun p => p.2 ≠ "")) ∧
    (∀ t n v : String,
       Part015ExecutePanel.resolvePath t [(n, v)] =
         if v = "" then t else replaceFirst t (placeholder n) (encodeURIComponent v)) ∧
    Part015ExecutePanel.resolvePath "/users/{id}/posts/{postId}"
      [("id", "42"), ("postId", "")] = "/users/42/posts/{postId}" ∧
    FrontendExecutePanel.resolvePath "/users/{id}/posts/{postId}"
      [("id", "42"), ("postId", "")] = "/users/42/posts/postId" := by
  refine ⟨fun t => rfl, fun t ps => part015_resolvePath_filter ps t,
    part015_single, rfl, rfl⟩

/-- C2 counterexample: a whitespace-only jwt-secret input is dropped from
the save request by `handleSave` (silently treated as "no change"); it is
not sent as a new value, contradicting the claim that a present
empty/whitespace-only value is a valid new value to store. -/
theorem c2_counterexample :
    (mkSaveData " " "pw").jwt_secret = none ∧
    (mkSaveData " " "pw").jwt_secret ≠ some " " ∧
    handleSave "env-1" " " "pw" =
      .request { jwt_secret := none, admin_password := some "pw" } := by
  refine ⟨by decide, by decide, by decide⟩

/-- C2 amended: in the Settings screens' `handleSave`, a field whose input
trims to the empty string (empty or whitespace-only) is omitted from the
save request — intended as "keep current" — so an explicitly empty value
can never be stored; a field with non-whitespace input is sent with the
caller's original, untrimmed value; and on the vault side a save whose
request omits a field leaves that field's stored slot untouched. -/
theorem c2_amended :
    (∀ j a : String, jsTrim j = "" → (mkSaveData j a).jwt_secret = none) ∧
    (∀ j a : String, jsTrim a = "" → (mkSaveData j a).admin_password = none) ∧
    (∀ j a : String, jsTrim j ≠ "" → (mkSaveData j a).jwt_secret = some j) ∧
    (∀ j a : String, jsTrim a ≠ "" → (mkSaveData j a).admin_password = some a) ∧
    (∀ j a v : String, (mkSaveData j a).jwt_secret = some v → v = j) ∧
    (∀ j a v : String, (mkSaveData j a).admin_password = some v → v = a) ∧
    (∀ (st : Store) (env : String) (d : SecretSave) (st' : Store),
       vaultSave st env d = .ok st' → d.jwt_secret = none →
       (findRecord env st').map (fun r => r.encrypted_signing_secret) =
         some (((findRecord env st).getD
           { encrypted_signing_secret := none,
             encrypted_service_password := none }).encrypted_signing_secret)) ∧
    (∀ (st : Store) (env : String) (d : SecretSave) (st' : Store),
       vaultSave st env d = .ok st' → d.admin_password = none →
       (findRecord env st').map (fun r => r.encrypted_service_password) =
         some (((findRecord env st).getD
           { encrypted_signing_secret := none,
             encrypted_service_password := none }).encrypted_service_password)) := by
  refine ⟨?_, ?_, ?_, ?_, ?_, ?_, ?_, ?_⟩
  · intro j a h; simp [mkSaveData, h]
  · intro j a h; simp [mkSaveData, h]
  · intro j a h; simp [mkSaveData, h]
  · intro j a h; simp [mkSaveData, h]
  · intro j a v h
    by_cases hj : jsTrim j = ""
    · simp [mkSaveData, hj] at h
    · simp [mkSaveData, hj] at h; exact h.symm
  · intro j a v h
    by_cases ha : jsTrim a = ""
    · simp [mkSaveData, ha] at h
    · simp [mkSaveData, ha] at h; exact h.symm
  · intro st env d st' hok hnone
    unfold vaultSave at hok
    split at hok
    · exact absurd hok (by simp)
    · simp only [Except.ok.injEq] at hok
      rw [← hok]
      simp [findRecord, updateRecord, hnone]
  · intro st env d st' hok hnone
    unfold vaultSave at hok
    split at hok
    · exact absurd hok (by simp)
    · simp only [Except.ok.injEq] at hok
      rw [← hok]
      simp [findRecord, updateRecord, hnone]

/-- C2 witness: the amended save semantics evaluated at concrete inputs —
dropped whitespace-only fields, untrimmed sent values, and a save omitting
one field preserving that field's stored slot. -/
theorem c2_amended_witness :
    (mkSaveData " " "pw").jwt_secret = none ∧
    (mkSaveData "s1" "\t").admin_password = none ∧
    (mkSaveData "s1" "pw").jwt_secret = some "s1" ∧
    (mkSaveData "s1" " pw ").admin_password = some " pw " ∧
    (" pw " = " pw ") ∧
    (findRecord "e"
        [("e",
          { encrypted_signing_secret := none,
            encrypted_service_password := some ⟨"pw"⟩ })]).map
      (fun r => r.encrypted_signing_secret) =
      some (((findRecord "e" ([] : Store)).getD
        { encrypted_signing_secret := none,
          encrypted_service_password := none }).encrypted_signing_secret) ∧
    (findRecord "e"
        [("e",
          { encrypted_signing_secret := some ⟨"s"⟩,
            encrypted_service_password := none })]).map
      (fun r => r.encrypted_service_password) =
      some (((findRecord "e" ([] : Store)).getD
        { encrypted_signing_secret := none,
          encrypted_service_password := none }).encrypted_service_password) := by
  refine ⟨c2_amended.1 " " "pw" (by decide),
    c2_amended.2.1 "s1" "\t" (by decide),
    c2_amended.2.2.1 "s1" "pw" (by decide),
    c2_amended.2.2.2.1 "s1" " pw " (by decide),
    c2_amended.2.2.2.2.2.1 "s1" " pw " " pw "
      (c2_amended.2.2.2.1 "s1" " pw " (by decide)),
    c2_amended.2.2.2.2.2.2.1 [] "e"
      { jwt_secret := none, admin_password := some "pw" }
      [("e",
        { encrypted_signing_secret := none,
          encrypted_service_password := some ⟨"pw"⟩ })] rfl rfl,
    c2_amended.2.2.2.2.2.2.2 [] "e"
      { jwt_secret := some "s", admin_password := none }
      [("e",
        { encrypted_signing_secret := some ⟨"s"⟩,
          encrypted_service_password := none })] rfl rfl⟩

/-- C3: every upstream HTTP response — including non-2xx such as 404 —
is returned by the forwarder as a normal `ProxyResponse` carrying the
upstream status, headers, body and elapsed time; only transport-level
failures produce a component-level error. -/
theorem c3_upstream_envelope :
    (∀ (url : String) (status : Nat) (hs : List (String × String))
       (body : String) (ms : Nat),
       forwardOutcome url (.response status hs body ms) =
         .ok { status_code := status, headers := hs, body := body
               elapsed_ms := ms, request_url := some url }) ∧
    (∀ (url : String) (kind : TransportError),
       forwardOutcome url (.transportFailure kind) = .error kind) ∧
    forwardOutcome "http://svc/items" (.response 404 [] "not found" 120) =
      .ok { status_code := 404, headers := [], body := "not found"
            elapsed_ms := 120, request_url := some "http://svc/items" } := by
  exact ⟨fun url status hs body ms => rfl, fun url kind => rfl, rfl⟩

/-- C4: in bearer (`jwt`) mode the resolver uses a supplied override
verbatim as the credential, ignoring the vault entirely; with no override
it fails with `CredentialMissingError` regardless of what the vault holds
(no vault fallback).  The frontend's `handleExecute` forwards the entered
token verbatim as `jwt_token` in this mode. -/
theorem c4_bearer_resolution :
    (∀ (t : String) (so vp : Option String),
       resolveCredential .jwt (some t) so vp = .ok (some t)) ∧
    (∀ so vp : Option String,
       resolveCredential .jwt none so vp = .error .credentialMissing) ∧
    (∀ (url method : String) (hs qps : List (String × String))
       (body : Option String) (env tok pw : String),
       (mkExecutePayload url method hs qps body env .jwt tok pw).jwt_token = some tok) := by
  exact ⟨fun t so vp => rfl, fun so vp => rfl,
    fun url method hs qps body env tok pw => rfl⟩

/-- C5: a save providing neither secret field is rejected — client-side,
`handleSave` refuses to issue the request (so no save call with an empty
field set ever reaches the store), and every request it does issue has at
least one field; vault-side, `save` with both fields absent fails with
`ValidationError` without persisting anything. -/
theorem c5_save_validation :
    (∀ env j a : String, env ≠ "" → jsTrim j = "" → jsTrim a = "" →
       handleSave env j a = .clientError "Please enter at least one secret to save") ∧
    (∀ (env j a : String) (d : SecretSave), handleSave env j a = .request d →
       d.jwt_secret.isSome ∨ d.admin_password.isSome) ∧
    (∀ (st : Store) (env : String),
       vaultSave st env { jwt_secret := none, admin_password := none } =
         .error .validationError) := by
  refine ⟨?_, ?_, fun st env => rfl⟩
  · intro env j a henv hj ha
    simp [handleSave, henv, mkSaveData, hj, ha]
  · intro env j a d h
    unfold handleSave at h
    by_cases henv : env = ""
    · simp [henv] at h
    · simp only [henv, if_false] at h
      by_cases hcond : ((mkSaveData j a).jwt_secret.isNone &&
          (mkSaveData j a).admin_password.isNone) = true
      · simp [hcond] at h
      · simp [hcond] at h
        rw [h] at hcond
        cases hd1 : d.jwt_secret with
        | some x => exact Or.inl (by simp [hd1])
        | none =>
          cases hd2 : d.admin_password with
          | some x => exact Or.inr (by simp [hd2])
          | none => exact absurd (by simp [hd1, hd2]) hcond

/-- C5 witness: the validation behaviour evaluated at concrete inputs. -/
theorem c5_save_validation_witness :
    handleSave "env-1" " " "" = .clientError "Please enter at least one secret to save" ∧
    ((mkSaveData "s1" "").jwt_secret.isSome ∨ (mkSaveData "s1" "").admin_password.isSome) ∧
    vaultSave [] "env-1" { jwt_secret := none, admin_password := none } =
      .error .validationError := by
  refine ⟨c5_save_validation.1 "env-1" " " "" (by decide) (by decide) (by decide),
    c5_save_validation.2.1 "env-1" "s1" "" (mkSaveData "s1" "") (by decide),
    c5_save_validation.2.2 [] "env-1"⟩

/-- Helper: a `save` for one environment leaves the status of every other
environment unchanged. -/
theorem vaultStatus_save_other (st : Store) (env envW : String) (d : SecretSave)
    (st' : Store) (hok : vaultSave st envW d = .ok st') (hne : env ≠ envW) :
    vaultStatus st' env = vaultStatus st env := by
  unfold vaultSave at hok
  split at hok
  · exact absurd hok (by simp)
  · simp only [Except.ok.injEq] at hok
    rw [← hok]
    simp [vaultStatus, findRecord, hne]

/-- Helper: record lookup respects the presence-only shape of the store —
the looked-up record's slot-presence pair is determined by the shape. -/
theorem findRecord_shape (env : String) : ∀ st st' : Store,
    storeShape st = storeShape st' →
    Option.map (fun r : SecretRecord =>
        (r.encrypted_signing_secret.isSome, r.encrypted_service_password.isSome))
      (findRecord env st) =
    Option.map (fun r : SecretRecord =>
        (r.encrypted_signing_secret.isSome, r.encrypted_service_password.isSome))
      (findRecord env st') := by
  intro st
  induction st with
  | nil =>
      intro st' h
      cases st' with
      | nil => rfl
      | cons q rest => simp [storeShape] at h
  | cons p rest ih =>
      intro st' h
      cases st' with
      | nil => simp [storeShape] at h
      | cons q rest' =>
        simp only [storeShape, List.map_cons, List.cons.injEq, Prod.mk.injEq] at h
        obtain ⟨⟨hk, hs1, hs2⟩, htail⟩ := h
        by_cases he : env = p.1
        · simp [findRecord, he, ← hk, hs1, hs2]
        · have he' : ¬env = q.1 := by rw [← hk]; exact he
          simp only [findRecord, he, he', if_false]
          exact ih rest' htail

/-- C6: an environment with no record (in particular the empty store, and
any store reached only by saves to other environments) reports both flags
false; and the status result depends only on the environment identifier
and slot presence — two stores that differ only in ciphertext values give
identical statuses, so no secret value can leak through `status`. -/
theorem c6_secret_status :
    (∀ env : String, vaultStatus [] env =
       { environment_id := env, has_jwt_secret := false, has_admin_password := false }) ∧
    (∀ (st : Store) (env envW : String) (d : SecretSave) (st' : Store),
       vaultSave st envW d = .ok st' → env ≠ envW →
       vaultStatus st' env = vaultStatus st env) ∧
    (∀ (st st' : Store) (env : String), storeShape st = storeShape st' →
       vaultStatus st env = vaultStatus st' env) := by
  refine ⟨fun env => rfl, vaultStatus_save_other, ?_⟩
  intro st st' env h
  have hm := findRecord_shape env st st' h
  cases h1 : findRecord env st with
  | none =>
      cases h2 : findRecord env st' with
      | none => simp [vaultStatus, h1, h2]
      | some r => rw [h1, h2] at hm; simp at hm
  | some r =>
      cases h2 : findRecord env st' with
      | none => rw [h1, h2] at hm; simp at hm
      | some r' =>
          rw [h1, h2] at hm
          simp only [Option.map_some', Option.some.injEq, Prod.mk.injEq] at hm
          obtain ⟨ha, hb⟩ := hm
          simp [vaultStatus, h1, h2, ha, hb]

/-- C6 witness: a save to environment `w` leaves `e`'s (empty) status
unchanged, and statuses are independent of the stored ciphertext values. -/
theorem c6_secret_status_witness :
    vaultStatus
        [("w",
          { encrypted_signing_secret := some ⟨"s"⟩,
            encrypted_service_password := none })] "e" = vaultStatus [] "e" ∧
    vaultStatus
        [("w",
          { encrypted_signing_secret := some ⟨"a"⟩,
            encrypted_service_password := none })] "w" =
      vaultStatus
        [("w",
          { encrypted_signing_secret := some ⟨"b"⟩,
            encrypted_service_password := none })] "w" := by
  refine ⟨c6_secret_status.2.1 [] "e" "w"
      { jwt_secret := some "s", admin_password := none }
      [("w",
        { encrypted_signing_secret := some ⟨"s"⟩,
          encrypted_service_password := none })] rfl (by decide),
    c6_secret_status.2.2
      [("w",
        { encrypted_signing_secret := some ⟨"a"⟩,
          encrypted_service_password := none })]
      [("w",
        { encrypted_signing_secret := some ⟨"b"⟩,
          encrypted_service_password := none })]
      "w" rfl⟩

/-- C7: with `auth_mode = "none"`, the payload `handleExecute` sends to the
proxy is identical for all values of the JWT-token and admin-password
inputs — neither credential field is transmitted — and the resolver
produces no credential header regardless of overrides. -/
theorem c7_none_noninterference :
    (∀ (url method : String) (hs qps : List (String × String))
       (body : Option String) (env t1 t2 p1 p2 : String),
       mkExecutePayload url method hs qps body env .noAuth t1 p1 =
         mkExecutePayload url method hs qps body env .noAuth t2 p2) ∧
    (∀ (url method : String) (hs qps : List (String × String))
       (body : Option String) (env t p : String),
       (mkExecutePayload url method hs qps body env .noAuth t p).jwt_token = none ∧
       (mkExecutePayload url method hs qps body env .noAuth t p).admin_password = none) ∧
    (∀ b s v : Option String, resolveCredential .noAuth b s v = .ok none) := by
  exact ⟨fun url method hs qps body env t1 t2 p1 p2 => rfl,
    fun url method hs qps body env t p => ⟨rfl, rfl⟩,
    fun b s v => rfl⟩

/-- C8: every axios instance the client module constructs carries a 30000 ms
(30 s) per-call timeout, and in every reachable module state the client
returned by `getApiClient` has that timeout — so every request issued
through the shared client (proxy executions included) runs under it. -/
theorem c8_timeout :
    (∀ b : Option String, (ApiClient.mkAxiosInstance b).config.timeout = 30000) ∧
    (∀ st : ApiClient.ModuleState, ApiClient.Reachable st →
       ∀ c : ApiClient.AxiosInstance, ApiClient.getApiClient st = .ok c →
         c.config.timeout = 30000) := by
  refine ⟨fun b => rfl, ?_⟩
  intro st hreach
  induction hreach with
  | start =>
      intro c hc
      simp [ApiClient.getApiClient, ApiClient.initialModuleState] at hc
  | step st' b s hprev ih =>
      intro c hc
      simp [ApiClient.getApiClient, ApiClient.initApiClient] at hc
      rw [← hc]
      rfl

/-- C8 witness: the timeout invariant at a concrete reachable state. -/
theorem c8_timeout_witness :
    (ApiClient.mkAxiosInstance (some "http://localhost:8000")).config.timeout = 30000 :=
  c8_timeout.2 _
    (ApiClient.Reachable.step ApiClient.initialModuleState
      (some "http://localhost:8000") none ApiClient.Reachable.start) _ rfl

/-- C9: before any `initApiClient` call, `getApiClient` throws
"API client not initialized. Call initApiClient() first." rather than
returning a client; after any `initApiClient` call it returns exactly the
client that call constructed and stored. -/
theorem c9_uninitialized_guard :
    ApiClient.getApiClient ApiClient.initialModuleState =
      .error "API client not initialized. Call initApiClient() first." ∧
    (∀ (st : ApiClient.ModuleState) (b : Option String)
       (s : Option ApiClient.StorageContent),
       ApiClient.getApiClient (ApiClient.initApiClient st b s).1 =
         .ok (ApiClient.initApiClient st b s).2) := by
  exact ⟨rfl, fun st b s => rfl⟩

/-- Helper: looking up `k` after mapping the set-in-place branch of
`setHeader` yields the new value exactly when some entry had key `k`. -/
theorem getHeader_map_set (k v : String) : ∀ hs : List (String × String),
    ApiClient.getHeader (hs.map fun p => if p.1 = k then (k, v) else p) k =
      if hs.any (fun p => p.1 = k) then some v else none := by
  intro hs
  induction hs with
  | nil => rfl
  | cons p rest ih =>
      by_cases hp : p.1 = k
      · simp [ApiClient.getHeader, hp]
      · have hd : decide (p.1 = k) = false := by simp [hp]
        simp only [List.map_cons, if_neg hp, ApiClient.getHeader, hp, if_false,
          List.any_cons, hd, Bool.false_or]
        exact ih

/-- Helper: appending `(k, v)` to a list with no `k` entry makes `k`
look up to `v`. -/
theorem getHeader_append_single (k v : String) : ∀ hs : List (String × String),
    hs.any (fun p => p.1 = k) = false →
    ApiClient.getHeader (hs ++ [(k, v)]) k = some v := by
  intro hs
  induction hs with
  | nil => intro _; simp [ApiClient.getHeader]
  | cons p rest ih =>
      intro h
      simp only [List.any_cons, Bool.or_eq_false_iff] at h
      have hp : ¬p.1 = k := of_decide_eq_false h.1
      simp only [List.cons_append, ApiClient.getHeader, hp, if_false]
      exact ih h.2

/-- Helper: after `setHeader hs k v`, key `k` looks up to `v`. -/
theorem getHeader_setHeader (hs : List (String × String)) (k v : String) :
    ApiClient.getHeader (ApiClient.setHeader hs k v) k = some v := by
  cases hB : hs.any (fun p => p.1 = k) with
  | true => simp [ApiClient.setHeader, hB, getHeader_map_set]
  | false =>
      simp only [ApiClient.setHeader, hB, Bool.false_eq_true, if_false]
      exact getHeader_append_single k v hs hB

/-- C10 counterexample: with the storage holding the empty-string token
(reachable, e.g. after `setToken("")` on a login response with an empty
`access_token`), the interceptor's `if (token)` truthiness guard attaches
no `Authorization` header even though the storage does hold a token —
refuting "carries an Authorization header ... exactly when the storage
currently holds a token". -/
theorem c10_counterexample :
    ApiClient.requestInterceptor (some (some "")) [] = [] ∧
    ApiClient.getHeader (ApiClient.requestInterceptor (some (some "")) [])
      "Authorization" = none ∧
    ApiClient.getHeader (ApiClient.requestInterceptor (some (some "")) [])
      "Authorization" ≠ some ("Bearer " ++ "") := by
  refine ⟨rfl, rfl, by decide⟩

/-- C10 amended: with a storage adapter installed, the request interceptor
sets `Authorization: Bearer <token>` exactly when the storage holds a
*non-empty* token (JS truthiness: a held empty-string token, like an
absent one, attaches nothing); the response error interceptor removes the
stored token on a 401 and propagates the error in every case (other
statuses leave the storage unchanged). -/
theorem c10_token_lifecycle :
    (∀ (t : String) (hs : List (String × String)), t ≠ "" →
       ApiClient.getHeader (ApiClient.requestInterceptor (some (some t)) hs)
         "Authorization" = some ("Bearer " ++ t)) ∧
    (∀ hs : List (String × String),
       ApiClient.requestInterceptor (some none) hs = hs) ∧
    (∀ hs : List (String × String),
       ApiClient.requestInterceptor (some (some "")) hs = hs) ∧
    (∀ t : String,
       ApiClient.responseErrorInterceptor 401 (some (some t)) = (some none, true)) ∧
    (∀ (status : Nat) (content : ApiClient.StorageContent), status ≠ 401 →
       ApiClient.responseErrorInterceptor status (some content) = (some content, true)) ∧
    (∀ (status : Nat) (adapter : Option ApiClient.StorageContent),
       (ApiClient.responseErrorInterceptor status adapter).2 = true) := by
  refine ⟨?_, fun hs => rfl, fun hs => rfl, fun t => rfl, ?_, ?_⟩
  · intro t hs ht
    simp only [ApiClient.requestInterceptor, if_neg ht]
    exact getHeader_setHeader hs "Authorization" ("Bearer " ++ t)
  · intro status content h
    simp [ApiClient.responseErrorInterceptor, h]
  · intro status adapter
    cases adapter with
    | none => rfl
    | some content =>
        simp only [ApiClient.responseErrorInterceptor]
        split <;> rfl

/-- C10 witness: a held non-empty token gets its Bearer header, and a
non-401 error leaves the stored token in place while still propagating
the error. -/
theorem c10_token_lifecycle_witness :
    ApiClient.getHeader (ApiClient.requestInterceptor (some (some "tok")) [])
      "Authorization" = some ("Bearer " ++ "tok") ∧
    ApiClient.responseErrorInterceptor 404 (some (some "tok")) =
      (some (some "tok"), true) :=
  ⟨c10_token_lifecycle.1 "tok" [] (by decide),
   c10_token_lifecycle.2.2.2.2.1 404 (some "tok") (by decide)⟩

end SwaggerAggregator
